import Mathlib

/-!
Verification of the dataset-dispatch and result-aggregation logic of the
Video-Transformer-Concept repository, against two source files:
`models/hide_seek/tcow/data/data.py` (loader assembly) and
`models/hide_seek/tcow/eval/pick_represent.py` (result aggregation).

The Python code is shallowly embedded: Python `dict`s become association
lists with first-match lookup and replace-in-place update (insertion order
preserved, as in `dict`), option values become a small `Val` carrier type,
fallible code returns `Except String`, and opaque external dataset objects
(KubricQueryDataset, YoutubeVOSDataset, PluginVideoDataset, MixedDataset,
ConcatDataset, DataLoader) become inductive constructors that record their
construction arguments. Pandas `Series.str.contains` is modelled as plain
substring containment, and Python `str.lower` as ASCII lowercasing, the
only case its inputs exercise here.
-/

/-! ### String helpers (Python `in`, `endswith`, `lower`, `split`, `<=`) -/

/-- Python `pat in s`: substring containment. -/
def strContains (s pat : String) : Bool :=
  (List.range (s.data.length + 1)).any fun i => pat.data.isPrefixOf (s.data.drop i)

/-- Python `s.endswith(pat)`. -/
def strEndsWith (s pat : String) : Bool :=
  pat.data.isSuffixOf s.data

/-- Python `s.lower()` (ASCII case folding, which is all the source needs). -/
def strLower (s : String) : String :=
  ⟨s.data.map Char.toLower⟩

/-- Splitter for Python `s.split(c)` on a single-character separator. -/
def splitCharList (c : Char) : List Char → List (List Char)
  | [] => [[]]
  | x :: xs =>
    let r := splitCharList c xs
    if x = c then [] :: r
    else
      match r with
      | [] => [[x]]
      | y :: ys => (x :: y) :: ys

/-- Python `s.split(c)` for a one-character separator. -/
def strSplitOn (s : String) (c : Char) : List String :=
  (splitCharList c s.data).map fun l => ⟨l⟩

/-- Python string `<=`: lexicographic comparison by code point. -/
def charListLe : List Char → List Char → Bool
  | [], _ => true
  | _ :: _, [] => false
  | a :: as, b :: bs =>
    if a.toNat < b.toNat then true
    else if b.toNat < a.toNat then false
    else charListLe as bs

def strLe (a b : String) : Bool :=
  charListLe a.data b.data

/-! ### A stable insertion sort (Python `sorted`) with a permutation lemma -/

def insertLe {α : Type} (le : α → α → Bool) (x : α) : List α → List α
  | [] => [x]
  | y :: ys => if le x y then x :: y :: ys else y :: insertLe le x ys

def sortLe {α : Type} (le : α → α → Bool) : List α → List α
  | [] => []
  | x :: xs => insertLe le x (sortLe le xs)

theorem insertLe_perm {α : Type} (le : α → α → Bool) (x : α) (l : List α) :
    List.Perm (insertLe le x l) (x :: l) := by
  induction l with
  | nil => simp [insertLe]
  | cons y ys ih =>
    unfold insertLe
    split
    · exact List.Perm.refl _
    · exact (List.Perm.cons y ih).trans (List.Perm.swap x y ys)

theorem sortLe_perm {α : Type} (le : α → α → Bool) (l : List α) :
    List.Perm (sortLe le l) l := by
  induction l with
  | nil => simp [sortLe]
  | cons x xs ih =>
    exact (insertLe_perm le x (sortLe le xs)).trans (List.Perm.cons x ih)

theorem mem_sortLe {α : Type} (le : α → α → Bool) (x : α) (l : List α) :
    x ∈ sortLe le l ↔ x ∈ l :=
  (sortLe_perm le l).mem_iff

theorem any_eq_of_perm {α : Type} {l₁ l₂ : List α} (h : List.Perm l₁ l₂)
    (f : α → Bool) : l₁.any f = l₂.any f := by
  rcases h1 : l₁.any f with _ | _ <;> rcases h2 : l₂.any f with _ | _ <;> try rfl
  · rw [List.any_eq_false] at h1
    rw [List.any_eq_true] at h2
    obtain ⟨x, hx, hfx⟩ := h2
    exact absurd hfx (by simpa using h1 x (h.mem_iff.mpr hx))
  · rw [List.any_eq_true] at h1
    rw [List.any_eq_false] at h2
    obtain ⟨x, hx, hfx⟩ := h1
    exact absurd hfx (by simpa using h2 x (h.mem_iff.mp hx))

theorem sortLe_ne_nil {α : Type} (le : α → α → Bool) (l : List α) (h : l ≠ []) :
    sortLe le l ≠ [] := by
  intro hs
  exact h ((hs ▸ sortLe_perm le l).symm.eq_nil)

/-! ### Source classifier (`data.py` lines 29-43)

`_is_kubric_source`, `_is_ytvos_source`, `_is_plugin_source`, and the
priority-ordered dispatch that both the train and the test loop apply
(`if _is_kubric_source ... elif _is_ytvos_source ... elif _is_plugin_source
... else error`). -/

def is_kubric_source (p : String) : Bool :=
  strContains (strLower p) "kubcon" || strContains (strLower p) "kubbench"

def is_ytvos_source (p : String) : Bool :=
  strContains (strLower p) "youtube-vos"

def is_plugin_source (p : String) : Bool :=
  strContains (strLower p) "plugin" ||
  strEndsWith (strLower p) ".mp4" ||
  strEndsWith (strLower p) ".avi" ||
  strEndsWith (strLower p) ".gif" ||
  strEndsWith (strLower p) ".webm"

inductive SourceTag where
  | kubric
  | ytvos
  | plugin
deriving DecidableEq

/-- The classification both loader loops perform, first match wins. -/
def classifySource (p : String) : Option SourceTag :=
  if is_kubric_source p then some SourceTag.kubric
  else if is_ytvos_source p then some SourceTag.ytvos
  else if is_plugin_source p then some SourceTag.plugin
  else none

/-- C2: For every path string, classification returns exactly one of the three
source tags or fails, in the fixed priority order: a path containing `kubcon`
or `kubbench` (case-insensitive) is synthetic-physics (kubric) regardless of
other markers; otherwise `youtube-vos` gives web-video (ytvos); otherwise
`plugin` or one of the four video extensions gives user-clip (plugin);
otherwise classification fails. -/
theorem classifySource_priority_order (p : String) :
    ((strContains (strLower p) "kubcon" || strContains (strLower p) "kubbench") = true →
      classifySource p = some SourceTag.kubric)
    ∧ ((strContains (strLower p) "kubcon" || strContains (strLower p) "kubbench") = false →
        strContains (strLower p) "youtube-vos" = true →
      classifySource p = some SourceTag.ytvos)
    ∧ ((strContains (strLower p) "kubcon" || strContains (strLower p) "kubbench") = false →
        strContains (strLower p) "youtube-vos" = false →
        (strContains (strLower p) "plugin" || strEndsWith (strLower p) ".mp4" ||
          strEndsWith (strLower p) ".avi" || strEndsWith (strLower p) ".gif" ||
          strEndsWith (strLower p) ".webm") = true →
      classifySource p = some SourceTag.plugin)
    ∧ ((strContains (strLower p) "kubcon" || strContains (strLower p) "kubbench") = false →
        strContains (strLower p) "youtube-vos" = false →
        (strContains (strLower p) "plugin" || strEndsWith (strLower p) ".mp4" ||
          strEndsWith (strLower p) ".avi" || strEndsWith (strLower p) ".gif" ||
          strEndsWith (strLower p) ".webm") = false →
      classifySource p = none) := by
  refine ⟨fun h1 => ?_, fun h1 h2 => ?_, fun h1 h2 h3 => ?_, fun h1 h2 h3 => ?_⟩ <;>
    simp [classifySource, is_kubric_source, is_ytvos_source, is_plugin_source, h1] <;>
    simp_all

/-- A path carrying the synthetic marker, the user-clip marker and a video
extension at once is still classified synthetic-physics (priority order). -/
theorem classifySource_priority_order_witness :
    classifySource "Data/KubCon_v10_plugin.mp4" = some SourceTag.kubric :=
  (classifySource_priority_order "Data/KubCon_v10_plugin.mp4").1 (by decide)

/-! ### Result filter (`pick_represent.py`, `construct_summary` lines 97-222)

A result-table row carries a friendly identifier and a scene identifier;
`hasScene` models whether the table has a `scene_dn` column. `candMatch` is
the per-pattern mask of the loop body (lines 126-136); `guideSelects` is the
whole mask for one row, including the initialisation
`agg_mask = csv['friendly_short_name'].str.contains(lines[0])` (line 124) on
the sorted pattern list (line 109). `str.contains` is modelled as substring
containment. -/

structure ResultRow where
  friendly_short_name : String
  scene_dn : String
deriving DecidableEq

def candMatch (hasScene : Bool) (pat : String) (r : ResultRow) : Bool :=
  if strContains pat "," && hasScene then
    let candScene := (strSplitOn pat ',').getD 0 ""
    let candFriendly := (strSplitOn pat ',').getD 1 ""
    let m := strContains r.scene_dn candScene
    if 0 < candFriendly.data.length then m && strContains r.friendly_short_name candFriendly
    else m
  else strContains r.friendly_short_name pat

/-- `lines = sorted(my_utils.read_txt_strip_comments(cur_guide_fp))`. -/
def sortedGuideLines (lines : List String) : List String :=
  sortLe strLe lines

/-- Whether one row is selected by a guide: the aggregate mask of
`construct_summary` restricted to this row. -/
def guideSelects (hasScene : Bool) (lines : List String) (r : ResultRow) : Bool :=
  match sortedGuideLines lines with
  | [] => false
  | l0 :: rest =>
    strContains r.friendly_short_name l0 ||
      (l0 :: rest).any fun p => candMatch hasScene p r

/-- C3 counterexample: with the single-pattern guide `["bar,baz"]` and a table
with a scene column, the row (friendly `xx_bar,baz_yy`, scene `nope`) is
selected by the code although it matches no per-pattern mask, because the
aggregate mask is initialised with a plain friendly-name containment of the
first sorted pattern, comma included. The selected row set is therefore not
the union of per-pattern matches. -/
theorem guideSelects_not_union_counterexample :
    guideSelects true ["bar,baz"] ⟨"xx_bar,baz_yy", "nope"⟩ = true
    ∧ (["bar,baz"].any fun p => candMatch true p ⟨"xx_bar,baz_yy", "nope"⟩) = false := by
  constructor
  · rfl
  · rfl

/-- C3 amended: the selected row set is the union (OR) of per-pattern matches
(comma patterns matching scene-and-name conjunctively when the table has a
scene column, all other patterns matching the friendly-name column), together
with the rows whose friendly-name column contains the lexicographically first
pattern verbatim; when that first pattern contains no comma or the table has
no scene column, this extra term is itself a per-pattern match and the
selected set is exactly the union. -/
theorem guideSelects_amended (hasScene : Bool) (lines : List String) (r : ResultRow)
    (h : lines ≠ []) :
    guideSelects hasScene lines r =
      (strContains r.friendly_short_name ((sortedGuideLines lines).headD "") ||
        lines.any fun p => candMatch hasScene p r) := by
  have hperm : List.Perm (sortedGuideLines lines) lines := sortLe_perm strLe lines
  unfold guideSelects
  rcases hs : sortedGuideLines lines with _ | ⟨l0, rest⟩
  · exact absurd (by simpa [sortedGuideLines] using hs) (sortLe_ne_nil strLe lines h)
  · rw [hs] at hperm
    show (strContains r.friendly_short_name l0 ||
        (l0 :: rest).any fun p => candMatch hasScene p r) =
      (strContains r.friendly_short_name ((l0 :: rest).headD "") ||
        lines.any fun p => candMatch hasScene p r)
    rw [any_eq_of_perm hperm]
    rfl

/-- The worked example of C3 at a sorted two-pattern guide: row
(name `baz_clip`, scene `bar123`) is selected via the conjunctive pattern. -/
theorem guideSelects_amended_witness :
    guideSelects true ["foo", "bar,baz"] ⟨"baz_clip", "bar123"⟩ = true :=
  (guideSelects_amended true ["foo", "bar,baz"] ⟨"baz_clip", "bar123"⟩
    (by decide)).trans (by decide)

/-! ### Aggregate metric filter (`pick_represent.py` lines 159-162 and 257-258)

`{k: v for (k, v) in sorted(metrics.items()) if ('count' in k and v > 0) or
('mean' in k and v > -1.0)}`. Metric values are floats on which the code only
compares; they are modelled as rationals. Dict items have pairwise distinct
keys, so sorting pairs by key-then-value is Python's `sorted`. -/

def pairLe (x y : String × ℚ) : Bool :=
  if x.1 = y.1 then decide (x.2 ≤ y.2) else strLe x.1 y.1

def metricKeep (k : String) (v : ℚ) : Bool :=
  (strContains k "count" && decide ((0 : ℚ) < v)) ||
  (strContains k "mean" && decide ((-1 : ℚ) < v))

def filterMetricsDict (m : List (String × ℚ)) : List (String × ℚ) :=
  (sortLe pairLe m).filter fun kv => metricKeep kv.1 kv.2

/-- C4: the post-aggregation filter retains an entry iff its name contains
`count` and its value is strictly positive, or its name contains `mean` and
its value is strictly greater than -1.0 (exclusive floor). -/
theorem filterMetrics_mem_iff (m : List (String × ℚ)) (k : String) (v : ℚ) :
    (k, v) ∈ filterMetricsDict m ↔
      ((k, v) ∈ m ∧
        ((strContains k "count" = true ∧ 0 < v) ∨
          (strContains k "mean" = true ∧ -1 < v))) := by
  unfold filterMetricsDict
  rw [List.mem_filter, (sortLe_perm pairLe m).mem_iff]
  simp [metricKeep]

/-- The examples of C4: `count_valid=0` dropped, `count_valid=5` kept,
`mean_iou=-1.0` dropped, `mean_iou=0.42` kept. -/
theorem filterMetrics_mem_iff_witness :
    ("count_valid", (5 : ℚ)) ∈
        filterMetricsDict [("count_valid", (0 : ℚ)), ("count_valid", (5 : ℚ)),
          ("mean_iou", (-1 : ℚ)), ("mean_iou", (0.42 : ℚ))]
    ∧ ¬ ("count_valid", (0 : ℚ)) ∈
        filterMetricsDict [("count_valid", (0 : ℚ)), ("count_valid", (5 : ℚ)),
          ("mean_iou", (-1 : ℚ)), ("mean_iou", (0.42 : ℚ))]
    ∧ ¬ ("mean_iou", (-1 : ℚ)) ∈
        filterMetricsDict [("count_valid", (0 : ℚ)), ("count_valid", (5 : ℚ)),
          ("mean_iou", (-1 : ℚ)), ("mean_iou", (0.42 : ℚ))]
    ∧ ("mean_iou", (0.42 : ℚ)) ∈
        filterMetricsDict [("count_valid", (0 : ℚ)), ("count_valid", (5 : ℚ)),
          ("mean_iou", (-1 : ℚ)), ("mean_iou", (0.42 : ℚ))] := by
  refine ⟨?_, ?_, ?_, ?_⟩
  · exact (filterMetrics_mem_iff _ _ _).mpr ⟨by norm_num, Or.inl ⟨by decide, by norm_num⟩⟩
  · intro hmem
    rcases (filterMetrics_mem_iff _ _ _).mp hmem with ⟨-, h | h⟩
    · exact absurd h.2 (by norm_num)
    · exact absurd h.1 (by decide)
  · intro hmem
    rcases (filterMetrics_mem_iff _ _ _).mp hmem with ⟨-, h | h⟩
    · exact absurd h.1 (by decide)
    · exact absurd h.2 (by norm_num)
  · exact (filterMetrics_mem_iff _ _ _).mpr ⟨by norm_num, Or.inr ⟨by decide, by norm_num⟩⟩

/-! ### Cross-model guide merger (`pick_represent.py`, `merge_cross_dataset_guides`
lines 225-290)

Summary rows carry the guide name, the result-folder name, a note and the
aggregate metric columns. The external metrics module
(`metrics.calculate_weighted_averages_dataframe`) is an out-of-scope
collaborator, passed in as a function `calcW`. -/

structure SummaryRow where
  guide : String
  testres_dn : String
  notes : String
  metrics : List (String × ℚ)
deriving DecidableEq

/-- The model pattern of a result-folder name:
`'_'.join(src_dn.split('_')[0:2])` (lines 233-235). -/
def modelPatOf (dn : String) : String :=
  String.intercalate "_" ((strSplitOn dn '_').take 2)

/-- `sel_rows` of one (guide, model pattern) pair (lines 243-246). -/
def selRowsFor (summary : List SummaryRow) (guideName modelPat : String) :
    List SummaryRow :=
  summary.filter fun row => row.guide == guideName && strContains row.testres_dn modelPat

/-- The note attached to a merged row: first matching pattern of the notes
file, else a single blank (lines 261-265). -/
def noteFor (modelNotes : List (String × String)) (dn : String) : String :=
  match modelNotes.find? fun kv => strContains dn kv.1 with
  | some kv => kv.2
  | none => " "

/-- The merged summary row one (guide, model pattern) pair contributes, or
`none` when the pair is skipped by the guard on line 249:
`sel_rows.shape[0] == 0 or (not('_m_' in guide_name) and sel_rows.shape[0] <= 1)`. -/
def mergedRowFor (calcW : List SummaryRow → List (String × ℚ))
    (modelNotes : List (String × String)) (guideName modelPat : String)
    (summary : List SummaryRow) : Option SummaryRow :=
  if (selRowsFor summary guideName modelPat).length == 0 ||
      (!(strContains guideName "_m_") &&
        decide ((selRowsFor summary guideName modelPat).length ≤ 1)) then
    none
  else
    some { guide := "cd_" ++ guideName, testres_dn := modelPat,
           notes := noteFor modelNotes modelPat,
           metrics := filterMetricsDict (calcW (selRowsFor summary guideName modelPat)) }

/-- `merge_cross_dataset_guides`: the rows of `new_summary`, i.e. the input
summary followed by one merged row per (guide, model pattern) pair that
passes the guard, in loop order (guides outer, model patterns inner);
`sel_rows` is always drawn from the original summary. -/
def merge_cross_dataset_guides (calcW : List SummaryRow → List (String × ℚ))
    (modelNotes : List (String × String)) (guideNames modelPats : List String)
    (summary : List SummaryRow) : List SummaryRow :=
  summary ++ guideNames.flatMap fun g =>
    modelPats.filterMap fun mp => mergedRowFor calcW modelNotes g mp summary

/-- C5: a (guide, model pattern) pair produces a merged summary row iff at
least 2 summary rows match it, when the guide name does not contain the
cross-dataset marker `_m_`; and iff at least 1 row matches, when it does. -/
theorem merged_row_requires_two_matches
    (calcW : List SummaryRow → List (String × ℚ))
    (modelNotes : List (String × String)) (g mp : String)
    (summary : List SummaryRow) :
    (strContains g "_m_" = false →
      ((mergedRowFor calcW modelNotes g mp summary).isSome = true ↔
        2 ≤ (selRowsFor summary g mp).length))
    ∧ (strContains g "_m_" = true →
      ((mergedRowFor calcW modelNotes g mp summary).isSome = true ↔
        1 ≤ (selRowsFor summary g mp).length)) := by
  constructor
  · intro hm
    unfold mergedRowFor
    split
    · rename_i hcond
      simp only [hm, Bool.not_false, Bool.true_and, Bool.or_eq_true, beq_iff_eq,
        decide_eq_true_eq] at hcond
      simp only [Option.isSome_none, Bool.false_eq_true, false_iff]
      omega
    · rename_i hcond
      simp only [hm, Bool.not_false, Bool.true_and, Bool.or_eq_true, beq_iff_eq,
        decide_eq_true_eq, not_or] at hcond
      simp only [Option.isSome_some, true_iff]
      omega
  · intro hm
    unfold mergedRowFor
    split
    · rename_i hcond
      simp only [hm, Bool.not_true, Bool.false_and, Bool.or_false, beq_iff_eq] at hcond
      simp only [Option.isSome_none, Bool.false_eq_true, false_iff]
      omega
    · rename_i hcond
      simp only [hm, Bool.not_true, Bool.false_and, Bool.or_false, beq_iff_eq] at hcond
      simp only [Option.isSome_some, true_iff]
      omega

/-- With the cross-dataset marker in the guide name, a single matching row
already produces a merged row: concrete check at one summary row. -/
theorem merged_row_requires_two_matches_witness :
    (mergedRowFor (fun _ => []) [] "rdy_v2_m_nl" "test_v1"
      [{ guide := "rdy_v2_m_nl", testres_dn := "test_v1_d8_e69", notes := " ",
         metrics := [] }]).isSome = true :=
  ((merged_row_requires_two_matches (fun _ => []) [] "rdy_v2_m_nl" "test_v1"
      [{ guide := "rdy_v2_m_nl", testres_dn := "test_v1_d8_e69", notes := " ",
         metrics := [] }]).2 (by decide)).mpr (by decide)

/-! ### Python dicts of option values (`data.py` configuration dicts)

Configuration values are opaque to the logic under verification; `Val` is a
small carrier for them. A Python dict becomes an association list: lookup
takes the first (unique) occurrence, assignment replaces in place or appends,
`del` removes, preserving insertion order exactly as `dict` does. -/

inductive Val where
  | vNone : Val
  | vBool : Bool → Val
  | vInt : Int → Val
  | vStr : String → Val
deriving DecidableEq

abbrev ConfigDict := List (String × Val)

def dictGet {α : Type} : List (String × α) → String → Option α
  | [], _ => none
  | (k0, v) :: t, k => if k = k0 then some v else dictGet t k

def dictContains {α : Type} (d : List (String × α)) (k : String) : Bool :=
  (dictGet d k).isSome

def dictSet {α : Type} : List (String × α) → String → α → List (String × α)
  | [], k, v => [(k, v)]
  | (k0, v0) :: t, k, v => if k = k0 then (k, v) :: t else (k0, v0) :: dictSet t k v

def dictDel {α : Type} : List (String × α) → String → List (String × α)
  | [], _ => []
  | (k0, v0) :: t, k => if k = k0 then t else (k0, v0) :: dictDel t k

theorem dictGet_dictSet {α : Type} (d : List (String × α)) (k q : String) (v : α) :
    dictGet (dictSet d k v) q = if q = k then some v else dictGet d q := by
  induction d with
  | nil =>
    simp only [dictSet, dictGet]
  | cons hd tl ih =>
    obtain ⟨k0, v0⟩ := hd
    by_cases hk : k = k0
    · subst hk
      by_cases hq : q = k <;> simp [dictSet, dictGet, hq]
    · by_cases hq : q = k0
      · subst hq
        simp [dictSet, dictGet, hk, Ne.symm hk]
      · simp [dictSet, dictGet, hk, hq, ih]

theorem dictSet_ne_nil {α : Type} (d : List (String × α)) (k : String) (v : α) :
    dictSet d k v ≠ [] := by
  cases d with
  | nil => simp [dictSet]
  | cons hd tl =>
    obtain ⟨k0, v0⟩ := hd
    unfold dictSet
    split <;> simp

/-! ### Global run options (`args` of the train flow, `test_args` of the test
flow), restricted to the fields `data.py` reads. -/

structure TrainArgs where
  data_loop_only : Bool
  do_val_aug : Bool
  do_val_noaug : Bool
  batch_size : Nat
  num_workers : Nat
  which_seeker : String
  num_frames : Val
  frame_height : Val
  frame_width : Val
  kubric_frame_rate : Val
  kubric_frame_stride : Val
  kubric_max_delay : Val
  use_data_frac : Val
  augs_2d : Val
  augs_3d : Val
  num_queries : Val
  seeker_query_time : Val
  force_perturb_idx : Val
  force_view_idx : Val
  single_scene : Val
  fake_data : Val
  augs_version : Val
  front_occl_thres : Val
  outer_cont_thres : Val
  kubric_reverse_prob : Val
  kubric_palindrome_prob : Val
  kubric_degrade : Val
  annot_visible_pxl_only : Val
  ytvos_frame_rate : Val
  ytvos_frame_stride : Val
deriving DecidableEq

structure TestArgs where
  batch_size : Nat
  num_workers : Nat
  single_scene : Val
  fake_data : Val
  use_data_frac : Val
  num_queries : Val
  force_perturb_idx : Val
  force_view_idx : Val
  kubric_degrade : Val
  plugin_frame_rate : Val
  plugin_prefer_frame_stride : Val
  annots_must_exist : Val
  center_crop : Val
deriving DecidableEq

/-! ### Per-phase configuration builders (`data.py` lines 126-190) -/

/-- The `which_seeker` dispatch of `create_kubric_train_val_data_loaders`
(lines 129-135); any other value leaves `query_size` unbound (a Python
`NameError` at its first use). -/
def kubricQuerySizeLoad3d (which_seeker : String) : Option (String × Bool) :=
  if which_seeker = "point_track_3d" then some ("point", true)
  else if which_seeker = "mask_track_2d" then some ("thing", false)
  else none

/-- `dset_args` of `create_kubric_train_val_data_loaders` (lines 137-161), in
insertion order. -/
def create_kubric_dset_args (a : TrainArgs) : Except String ConfigDict :=
  match kubricQuerySizeLoad3d a.which_seeker with
  | none => .error "NameError: name query_size is not defined"
  | some qs =>
    .ok [("num_frames", a.num_frames),
         ("frame_height", a.frame_height),
         ("frame_width", a.frame_width),
         ("frame_rate", a.kubric_frame_rate),
         ("frame_stride", a.kubric_frame_stride),
         ("max_delay", a.kubric_max_delay),
         ("use_data_frac", a.use_data_frac),
         ("augs_2d", a.augs_2d),
         ("augs_3d", a.augs_3d),
         ("num_queries", a.num_queries),
         ("query_time", a.seeker_query_time),
         ("query_size", Val.vStr qs.1),
         ("load_3d", Val.vBool qs.2),
         ("max_objects", Val.vInt 36),
         ("force_perturb_idx", a.force_perturb_idx),
         ("force_view_idx", a.force_view_idx),
         ("single_scene", a.single_scene),
         ("fake_data", a.fake_data),
         ("augs_version", a.augs_version),
         ("front_occl_thres", a.front_occl_thres),
         ("outer_cont_thres", a.outer_cont_thres),
         ("reverse_prob", a.kubric_reverse_prob),
         ("palindrome_prob", a.kubric_palindrome_prob),
         ("degrade", a.kubric_degrade),
         ("annot_visible_pxl_only", a.annot_visible_pxl_only)]

/-- `dset_args` of `create_youtube_vos_train_loader` (lines 173-185); the
function asserts `args.which_seeker == 'mask_track_2d'` first. -/
def create_ytvos_dset_args (a : TrainArgs) : Except String ConfigDict :=
  if a.which_seeker = "mask_track_2d" then
    .ok [("num_frames", a.num_frames),
         ("frame_height", a.frame_height),
         ("frame_width", a.frame_width),
         ("frame_rate", a.ytvos_frame_rate),
         ("frame_stride", a.ytvos_frame_stride),
         ("use_data_frac", a.use_data_frac),
         ("augs_2d", a.augs_2d),
         ("query_time", a.seeker_query_time),
         ("augs_version", a.augs_version)]
  else .error "AssertionError: args.which_seeker == mask_track_2d"

/-! ### Kubric test configuration (`create_kubric_test_data_loader`,
`data.py` lines 252-284) -/

/-- The backward-compatibility patch (lines 256-260): default `augs_version`
when absent, drop `load_full_segm` when present. -/
def kubricCompatPatch (d : ConfigDict) : ConfigDict :=
  let d1 := if dictContains d "augs_version" then d else dictSet d "augs_version" (Val.vInt 1)
  if dictContains d1 "load_full_segm" then dictDel d1 "load_full_segm" else d1

/-- The explicit test-time overrides (lines 267-279), applied in source
order after the deep copy of the train configuration. -/
def kubricTestOverride (d : ConfigDict) (t : TestArgs) : ConfigDict :=
  dictSet (dictSet (dictSet (dictSet (dictSet (dictSet (dictSet (dictSet (dictSet (dictSet d
    "single_scene" t.single_scene)
    "fake_data" t.fake_data)
    "use_data_frac" t.use_data_frac)
    "augs_2d" (Val.vBool false))
    "augs_3d" (Val.vBool false))
    "num_queries" t.num_queries)
    "force_perturb_idx" t.force_perturb_idx)
    "force_view_idx" t.force_view_idx)
    "degrade" t.kubric_degrade)
    "annot_visible_pxl_only" (Val.vBool false)

/-- `test_dset_args` of `create_kubric_test_data_loader`: deep copy of
`train_dset_args_sources['kubric']` (a `KeyError` when absent), compat patch,
then the overrides. -/
def create_kubric_test_dset_args (S : List (String × ConfigDict)) (t : TestArgs) :
    Except String ConfigDict :=
  match dictGet S "kubric" with
  | none => .error "KeyError: kubric"
  | some train => .ok (kubricTestOverride (kubricCompatPatch train) t)

def kubricTestOverrideKeys : List String :=
  ["single_scene", "fake_data", "use_data_frac", "augs_2d", "augs_3d",
   "num_queries", "force_perturb_idx", "force_view_idx", "degrade",
   "annot_visible_pxl_only"]

theorem dictGet_kubricTestOverride (d : ConfigDict) (t : TestArgs) (q : String) :
    dictGet (kubricTestOverride d t) q =
      if q = "annot_visible_pxl_only" then some (Val.vBool false)
      else if q = "degrade" then some t.kubric_degrade
      else if q = "force_view_idx" then some t.force_view_idx
      else if q = "force_perturb_idx" then some t.force_perturb_idx
      else if q = "num_queries" then some t.num_queries
      else if q = "augs_3d" then some (Val.vBool false)
      else if q = "augs_2d" then some (Val.vBool false)
      else if q = "use_data_frac" then some t.use_data_frac
      else if q = "fake_data" then some t.fake_data
      else if q = "single_scene" then some t.single_scene
      else dictGet d q := by
  unfold kubricTestOverride
  simp only [dictGet_dictSet]

theorem kubricCompatPatch_of_valid (d : ConfigDict)
    (hav : dictContains d "augs_version" = true)
    (hlf : dictContains d "load_full_segm" = false) :
    kubricCompatPatch d = d := by
  unfold kubricCompatPatch
  simp [hav, hlf]

/-- C1: for every valid train configuration (one containing `augs_version`
and not containing `load_full_segm`), the kubric test configuration equals
the train configuration on every field outside the documented override set
`kubricTestOverrideKeys`; inside the set, `augs_2d`, `augs_3d` and
`annot_visible_pxl_only` are forced `False` and the others take the test-run
option values. -/
theorem kubric_test_config_overrides (S : List (String × ConfigDict)) (t : TestArgs)
    (train : ConfigDict)
    (hsrc : dictGet S "kubric" = some train)
    (hav : dictContains train "augs_version" = true)
    (hlf : dictContains train "load_full_segm" = false) :
    ∃ d, create_kubric_test_dset_args S t = .ok d
      ∧ (∀ q, ¬ q ∈ kubricTestOverrideKeys → dictGet d q = dictGet train q)
      ∧ dictGet d "single_scene" = some t.single_scene
      ∧ dictGet d "fake_data" = some t.fake_data
      ∧ dictGet d "use_data_frac" = some t.use_data_frac
      ∧ dictGet d "augs_2d" = some (Val.vBool false)
      ∧ dictGet d "augs_3d" = some (Val.vBool false)
      ∧ dictGet d "num_queries" = some t.num_queries
      ∧ dictGet d "force_perturb_idx" = some t.force_perturb_idx
      ∧ dictGet d "force_view_idx" = some t.force_view_idx
      ∧ dictGet d "degrade" = some t.kubric_degrade
      ∧ dictGet d "annot_visible_pxl_only" = some (Val.vBool false) := by
  have hpatch : kubricCompatPatch train = train := kubricCompatPatch_of_valid train hav hlf
  refine ⟨kubricTestOverride train t, ?_, ?_, ?_, ?_, ?_, ?_, ?_, ?_, ?_, ?_, ?_, ?_⟩
  · simp [create_kubric_test_dset_args, hsrc, hpatch]
  · intro q hq
    simp only [kubricTestOverrideKeys, List.mem_cons, List.not_mem_nil, or_false,
      not_or] at hq
    obtain ⟨h1, h2, h3, h4, h5, h6, h7, h8, h9, h10⟩ := hq
    rw [dictGet_kubricTestOverride]
    simp [h1, h2, h3, h4, h5, h6, h7, h8, h9, h10]
  all_goals rw [dictGet_kubricTestOverride]
  all_goals simp

/-! Concrete option sets used by the closed instantiations below. -/

def argsW : TrainArgs :=
  { data_loop_only := false, do_val_aug := false, do_val_noaug := false,
    batch_size := 4, num_workers := 2, which_seeker := "mask_track_2d",
    num_frames := Val.vInt 24, frame_height := Val.vInt 240, frame_width := Val.vInt 320,
    kubric_frame_rate := Val.vInt 12, kubric_frame_stride := Val.vInt 1,
    kubric_max_delay := Val.vInt 0, use_data_frac := Val.vInt 1,
    augs_2d := Val.vBool true, augs_3d := Val.vBool true,
    num_queries := Val.vInt 1, seeker_query_time := Val.vInt 0,
    force_perturb_idx := Val.vInt (-1), force_view_idx := Val.vInt (-1),
    single_scene := Val.vBool false, fake_data := Val.vBool false,
    augs_version := Val.vInt 2, front_occl_thres := Val.vStr "0.95",
    outer_cont_thres := Val.vStr "0.75", kubric_reverse_prob := Val.vStr "0.1",
    kubric_palindrome_prob := Val.vStr "0.1", kubric_degrade := Val.vStr "none",
    annot_visible_pxl_only := Val.vBool true,
    ytvos_frame_rate := Val.vInt 5, ytvos_frame_stride := Val.vInt 5 }

def testW : TestArgs :=
  { batch_size := 1, num_workers := 0, single_scene := Val.vBool true,
    fake_data := Val.vBool false, use_data_frac := Val.vInt 1,
    num_queries := Val.vInt 2, force_perturb_idx := Val.vInt 3,
    force_view_idx := Val.vInt 4, kubric_degrade := Val.vStr "blur",
    plugin_frame_rate := Val.vInt 10, plugin_prefer_frame_stride := Val.vInt 2,
    annots_must_exist := Val.vBool true, center_crop := Val.vBool false }

def cfgW : ConfigDict :=
  match create_kubric_dset_args argsW with
  | .ok c => c
  | .error _ => []

def sourcesW : List (String × ConfigDict) := [("kubric", cfgW)]

/-- Instantiation of C1 at a concrete valid train configuration: the
augmentation toggle is forced off while an untouched field
(`frame_height`) keeps its train value. -/
theorem kubric_test_config_overrides_witness :
    ∃ d, create_kubric_test_dset_args sourcesW testW = .ok d
      ∧ dictGet d "augs_2d" = some (Val.vBool false)
      ∧ dictGet d "frame_height" = dictGet cfgW "frame_height" := by
  obtain ⟨d, hok, hkeep, h1, h2, h3, h4, h5, h6, h7, h8, h9, h10⟩ :=
    kubric_test_config_overrides sourcesW testW cfgW (by decide) (by decide) (by decide)
  exact ⟨d, hok, h4, hkeep "frame_height" (by decide)⟩

/-! ### Web-video (ytvos) test configuration (`create_youtube_vos_test_loader`,
`data.py` lines 287-302) -/

def ytvosCompatPatch (d : ConfigDict) : ConfigDict :=
  if dictContains d "augs_version" then d else dictSet d "augs_version" (Val.vInt 1)

/-- `test_dset_args` of `create_youtube_vos_test_loader`: deep copy of
`train_dset_args_sources['ytvos']`, compat patch, then the two overrides
`use_data_frac` and `augs_2d = False`. -/
def create_ytvos_test_dset_args (S : List (String × ConfigDict)) (t : TestArgs) :
    Except String ConfigDict :=
  match dictGet S "ytvos" with
  | none => .error "KeyError: ytvos"
  | some train =>
    .ok (dictSet (dictSet (ytvosCompatPatch train) "use_data_frac" t.use_data_frac)
      "augs_2d" (Val.vBool false))

/-- Reads one key out of a configuration-building result. -/
def exceptKey (e : Except String ConfigDict) (q : String) : Option Val :=
  match e with
  | .ok d => dictGet d q
  | .error _ => none

/-- C8 counterexample: `create_youtube_vos_test_loader` copies the *ytvos
train* configuration, not the synthetic-physics test configuration; when the
two stored train configurations disagree on `frame_height`, the ytvos test
configuration keeps its own value (240) and differs from the kubric test
configuration (999) built from the same inputs. -/
theorem ytvos_test_geometry_counterexample :
    exceptKey (create_ytvos_test_dset_args
        [("kubric", [("frame_height", Val.vInt 999), ("augs_version", Val.vInt 2)]),
         ("ytvos", [("frame_height", Val.vInt 240), ("augs_version", Val.vInt 2)])] testW)
      "frame_height" = some (Val.vInt 240)
    ∧ exceptKey (create_kubric_test_dset_args
        [("kubric", [("frame_height", Val.vInt 999), ("augs_version", Val.vInt 2)]),
         ("ytvos", [("frame_height", Val.vInt 240), ("augs_version", Val.vInt 2)])] testW)
      "frame_height" = some (Val.vInt 999)
    ∧ exceptKey (create_ytvos_test_dset_args
        [("kubric", [("frame_height", Val.vInt 999), ("augs_version", Val.vInt 2)]),
         ("ytvos", [("frame_height", Val.vInt 240), ("augs_version", Val.vInt 2)])] testW)
      "frame_height" ≠ exceptKey (create_kubric_test_dset_args
        [("kubric", [("frame_height", Val.vInt 999), ("augs_version", Val.vInt 2)]),
         ("ytvos", [("frame_height", Val.vInt 240), ("augs_version", Val.vInt 2)])] testW)
      "frame_height" := by
  refine ⟨rfl, rfl, ?_⟩
  decide

set_option maxHeartbeats 1600000 in
/-- C8 amended: the web-video test configuration is deep-copied from the
web-video *train* configuration (overriding only `use_data_frac` and
`augs_2d`); its frame-count, resolution and query-time fields nevertheless
equal those of the synthetic-physics test configuration whenever both stored
train configurations were built by the training flow from the same global
options, because neither test builder overrides those fields. -/
theorem ytvos_test_geometry_from_shared_args (a : TrainArgs) (t : TestArgs)
    (ka ya : ConfigDict)
    (hk : create_kubric_dset_args a = .ok ka)
    (hy : create_ytvos_dset_args a = .ok ya) :
    ∀ q ∈ (["num_frames", "frame_height", "frame_width", "query_time"] : List String),
      exceptKey (create_ytvos_test_dset_args [("kubric", ka), ("ytvos", ya)] t) q =
        exceptKey (create_kubric_test_dset_args [("kubric", ka), ("ytvos", ya)] t) q := by
  have hws : a.which_seeker = "mask_track_2d" := by
    by_contra hws
    rw [create_ytvos_dset_args, if_neg hws] at hy
    exact absurd hy (by simp)
  rw [create_ytvos_dset_args, if_pos hws] at hy
  rw [create_kubric_dset_args, kubricQuerySizeLoad3d, hws,
    if_neg (by decide : ¬ ("mask_track_2d" : String) = "point_track_3d"),
    if_pos (rfl : ("mask_track_2d" : String) = "mask_track_2d")] at hk
  norm_num at hk hy
  subst hk
  subst hy
  intro q hq
  fin_cases hq <;> rfl

def ytvosCfgW : ConfigDict :=
  match create_ytvos_dset_args argsW with
  | .ok c => c
  | .error _ => []

/-- Instantiation of C8 (amended) at one set of global options. -/
theorem ytvos_test_geometry_from_shared_args_witness :
    exceptKey (create_ytvos_test_dset_args [("kubric", cfgW), ("ytvos", ytvosCfgW)] testW)
        "frame_height" =
      exceptKey (create_kubric_test_dset_args [("kubric", cfgW), ("ytvos", ytvosCfgW)] testW)
        "frame_height" :=
  ytvos_test_geometry_from_shared_args argsW testW cfgW ytvosCfgW rfl rfl
    "frame_height" (by decide)

/-! ### User-clip (plugin) test configuration (`create_plugin_test_data_loader`,
`data.py` lines 305-336) -/

def dictGetE (d : ConfigDict) (k : String) : Except String Val :=
  match dictGet d k with
  | some v => .ok v
  | none => .error ("KeyError: " ++ k)

/-- `test_dset_args` of `create_plugin_test_data_loader`: built from scratch,
copying geometry/query fields out of the *kubric train* configuration,
user-clip options out of the test-run options, with `prefetch` forced on. -/
def create_plugin_test_dset_args (S : List (String × ConfigDict)) (t : TestArgs) :
    Except String ConfigDict :=
  match dictGet S "kubric" with
  | none => .error "KeyError: kubric"
  | some kub => do
    let d : ConfigDict :=
      if dictContains ([] : ConfigDict) "augs_version" then []
      else dictSet [] "augs_version" (Val.vInt 1)
    let v1 ← dictGetE kub "num_frames"
    let d := dictSet d "num_clip_frames" v1
    let v2 ← dictGetE kub "frame_height"
    let d := dictSet d "frame_height" v2
    let v3 ← dictGetE kub "frame_width"
    let d := dictSet d "frame_width" v3
    let d := dictSet d "frame_rate" t.plugin_frame_rate
    let d := dictSet d "prefer_frame_stride" t.plugin_prefer_frame_stride
    let d := dictSet d "multiplicity" (Val.vInt 12)
    let v4 ← dictGetE kub "query_time"
    let d := dictSet d "query_time" v4
    let v5 ← dictGetE kub "augs_version"
    let d := dictSet d "augs_version" v5
    let d := dictSet d "annots_must_exist" t.annots_must_exist
    let d := dictSet d "prefetch" (Val.vBool true)
    let d := dictSet d "center_crop" t.center_crop
    .ok d

/-! ### Datasets, loaders and the test loop (`create_test_data_loader`,
`data.py` lines 193-249)

A dataset object records its construction arguments; `mixed` and `concat`
record the collection they wrap. -/

inductive Dataset where
  | kubricQuery (path phase : String) (cfg : ConfigDict)
  | youtubeVOS (path phase : String) (cfg : ConfigDict)
  | pluginVideo (path phase : String) (cfg : ConfigDict)
  | mixed (sources : List (String × Option Dataset)) (chunkSize : Nat)
  | concat (datasets : List Dataset)

structure DataLoader where
  dataset : Option Dataset
  batchSize : Nat
  numWorkers : Nat
  shuffle : Bool
  dropLast : Bool

/-- The two accepted layouts of `train_dset_args_sources`: the current format
keyed by source tag, or the flat single-source format of older checkpoints.
Python tells them apart by the absence of a `kubric` key in the flat dict
(lines 211-212); the embedding records the format in the constructor. -/
inductive TrainSrcInput where
  | bySource (m : List (String × ConfigDict))
  | flat (c : ConfigDict)

def upgradeArgsSources : TrainSrcInput → List (String × ConfigDict)
  | .bySource m => m
  | .flat c => [("kubric", c)]

structure TestLoopState where
  datasetList : List Dataset
  argsSources : List (String × ConfigDict)
  lastTest : Option Dataset

structure TestResult where
  test_loader : DataLoader
  test_dset_args_sources : List (String × ConfigDict)
  datasetList : List Dataset
  finalDataset : Dataset

/-- One iteration of the test loop (lines 208-236). -/
def processTestPath (t : TestArgs) (S : List (String × ConfigDict))
    (st : TestLoopState) (p : String) : Except String TestLoopState :=
  match classifySource p with
  | some SourceTag.kubric =>
    match create_kubric_test_dset_args S t with
    | .error e => .error e
    | .ok d =>
      let ds := Dataset.kubricQuery p "test" d
      .ok ⟨st.datasetList ++ [ds], dictSet st.argsSources "kubric" d, some ds⟩
  | some SourceTag.ytvos =>
    match create_ytvos_test_dset_args S t with
    | .error e => .error e
    | .ok d =>
      let ds := Dataset.youtubeVOS p "test" d
      .ok ⟨st.datasetList ++ [ds], dictSet st.argsSources "ytvos" d, some ds⟩
  | some SourceTag.plugin =>
    match create_plugin_test_dset_args S t with
    | .error e => .error e
    | .ok d =>
      let ds := Dataset.pluginVideo p "test" d
      .ok ⟨st.datasetList ++ [ds], dictSet st.argsSources "plugin" d, some ds⟩
  | none => .error ("Unknown data path: " ++ p)

def processTestPaths (t : TestArgs) (S : List (String × ConfigDict)) :
    TestLoopState → List String → Except String TestLoopState
  | st, [] => .ok st
  | st, p :: rest =>
    match processTestPath t S st p with
    | .error e => .error e
    | .ok st1 => processTestPaths t S st1 rest

/-- Lines 238-242: a single dataset is passed through via the loop variable
`test_dataset`; several are wrapped in `ConcatDataset`. -/
def finalTestDataset (st : TestLoopState) : Except String Dataset :=
  if st.datasetList.length = 1 then
    match st.lastTest with
    | some d => .ok d
    | none => .error "NameError: name test_dataset is not defined"
  else .ok (Dataset.concat st.datasetList)

/-- `create_test_data_loader`. The in-loop format upgrade is applied once up
front: it is idempotent, so upgrading on every iteration as Python does gives
the same mapping. The loader never shuffles and keeps the last batch. -/
def create_test_data_loader (t : TestArgs) (trainSrcs : TrainSrcInput)
    (paths : List String) : Except String TestResult :=
  match processTestPaths t (upgradeArgsSources trainSrcs) ⟨[], [], none⟩ paths with
  | .error e => .error e
  | .ok st =>
    match finalTestDataset st with
    | .error e => .error e
    | .ok final =>
      let loader : DataLoader :=
        { dataset := some final, batchSize := t.batch_size,
          numWorkers := t.num_workers, shuffle := false, dropLast := false }
      .ok { test_loader := loader,
            test_dset_args_sources := st.argsSources,
            datasetList := st.datasetList, finalDataset := final }

def testResultList (e : Except String TestResult) : Option (List Dataset) :=
  match e with
  | .ok r => some r.datasetList
  | .error _ => none

def testResultArgsSources (e : Except String TestResult) :
    Option (List (String × ConfigDict)) :=
  match e with
  | .ok r => some r.test_dset_args_sources
  | .error _ => none

/-! ### Train/val loader assembly (`create_train_val_data_loaders`,
`data.py` lines 46-123)

The loop locals `train_dataset`, `val_aug_dataset`, `val_noaug_dataset` are
carried explicitly; `none` in the outer `Option` means "never assigned"
(referencing it is a Python `NameError`). The per-tag dicts and the final
shuffle flag are recorded in the result next to the returned loaders, so that
the theorems can speak about them. `logger.error` output is returned as a log
list alongside the outcome. -/

structure LoopState where
  trainS : List (String × Dataset)
  valAugS : List (String × Option Dataset)
  valNoaugS : List (String × Option Dataset)
  argsS : List (String × ConfigDict)
  lastTrain : Option Dataset
  lastValAug : Option (Option Dataset)
  lastValNoaug : Option (Option Dataset)

def initLoopState : LoopState :=
  ⟨[], [], [], [], none, none, none⟩

/-- One iteration of the train loop (lines 59-78), including
`create_kubric_train_val_data_loaders` (lines 126-170) and
`create_youtube_vos_train_loader` (lines 173-190). -/
def processPath (a : TrainArgs) (st : LoopState) (p : String) :
    Except String LoopState :=
  match classifySource p with
  | some SourceTag.kubric =>
    match create_kubric_dset_args a with
    | .error e => .error e
    | .ok cfg =>
      let trainD := Dataset.kubricQuery p "train" cfg
      let valAugD := if a.do_val_aug then some (Dataset.kubricQuery p "val_aug" cfg)
        else none
      let valNoaugD := if a.do_val_noaug then some (Dataset.kubricQuery p "val_noaug" cfg)
        else none
      .ok { trainS := dictSet st.trainS "kubric" trainD,
            valAugS := dictSet st.valAugS "kubric" valAugD,
            valNoaugS := dictSet st.valNoaugS "kubric" valNoaugD,
            argsS := dictSet st.argsS "kubric" cfg,
            lastTrain := some trainD,
            lastValAug := some valAugD,
            lastValNoaug := some valNoaugD }
  | some SourceTag.ytvos =>
    match create_ytvos_dset_args a with
    | .error e => .error e
    | .ok cfg =>
      let trainD := Dataset.youtubeVOS p "train" cfg
      .ok { st with trainS := dictSet st.trainS "ytvos" trainD,
                    argsS := dictSet st.argsS "ytvos" cfg,
                    lastTrain := some trainD }
  | some SourceTag.plugin =>
    .error "NotImplementedError: Plugin video is only available at test time."
  | none => .error ("Unknown data path: " ++ p)

def processPaths (a : TrainArgs) : LoopState → List String → Except String LoopState
  | st, [] => .ok st
  | st, p :: rest =>
    match processPath a st p with
    | .error e => .error e
    | .ok st1 => processPaths a st1 rest

/-- Lines 80-91: pass a single training dataset through, mix several
(disabling shuffling), fail on zero. Returns the dataset and the shuffle flag
as updated by this block. -/
def trainBlock (a : TrainArgs) (st : LoopState) (shuffle0 : Bool) :
    Except String (Dataset × Bool) :=
  if st.trainS.length = 1 then
    match st.lastTrain with
    | some d => .ok (d, shuffle0)
    | none => .error "NameError: name train_dataset is not defined"
  else if 1 < st.trainS.length then
    .ok (Dataset.mixed (st.trainS.map fun kv => (kv.1, some kv.2)) a.batch_size, false)
  else .error "RuntimeError: No training datasets were successfully instantiated."

/-- Lines 93-109: the validation block. Returns the (possibly unassigned)
locals `final_val_aug_dataset` and `final_val_noaug_dataset`, the shuffle
flag as updated by this block, and the error-log lines it emitted. -/
def valBlock (a : TrainArgs) (st : LoopState) (shuffle1 : Bool) :
    Option (Option Dataset) × Option (Option Dataset) × Bool × List String :=
  if st.valAugS.length = 1 then
    (st.lastValAug, st.lastValNoaug, shuffle1, [])
  else if 1 < st.valAugS.length then
    (some (if a.do_val_aug then some (Dataset.mixed st.valAugS a.batch_size) else none),
     some (if a.do_val_noaug then some (Dataset.mixed st.valNoaugS a.batch_size) else none),
     false, [])
  else if a.do_val_aug || a.do_val_noaug then
    (none, none, shuffle1, ["No validation datasets were successfully instantiated."])
  else (none, none, shuffle1, [])

/-- Lines 114-121: one optional validation loader; reading an unassigned
local raises `NameError`. -/
def valLoaderBlock (doFlag : Bool) (v : Option (Option Dataset)) (bs nw : Nat)
    (sh : Bool) (who : String) : Except String (Option DataLoader) :=
  if doFlag then
    match v with
    | some d =>
      .ok (some { dataset := d, batchSize := bs, numWorkers := nw,
                  shuffle := sh, dropLast := true })
    | none => .error ("NameError: name " ++ who ++ " is not defined")
  else .ok none

structure TrainValResult where
  train_loader : DataLoader
  val_aug_loader : Option DataLoader
  val_noaug_loader : Option DataLoader
  dset_args_sources : List (String × ConfigDict)
  trainSources : List (String × Dataset)
  valAugSources : List (String × Option Dataset)
  shuffle : Bool

/-- Lines 80-123 after the loop. -/
def assembleTrainVal (a : TrainArgs) (st : LoopState) :
    List String × Except String TrainValResult :=
  match trainBlock a st (!a.data_loop_only) with
  | .error e => ([], .error e)
  | .ok pair =>
    match valBlock a st pair.2 with
    | (fva, fvn, sh2, logs) =>
      let train_loader : DataLoader :=
        { dataset := some pair.1, batchSize := a.batch_size,
          numWorkers := a.num_workers, shuffle := sh2, dropLast := true }
      match valLoaderBlock a.do_val_aug fva a.batch_size a.num_workers sh2
          "final_val_aug_dataset" with
      | .error e => (logs, .error e)
      | .ok va =>
        match valLoaderBlock a.do_val_noaug fvn a.batch_size a.num_workers sh2
            "final_val_noaug_dataset" with
        | .error e => (logs, .error e)
        | .ok vn =>
          (logs, .ok { train_loader := train_loader, val_aug_loader := va,
                       val_noaug_loader := vn, dset_args_sources := st.argsS,
                       trainSources := st.trainS, valAugSources := st.valAugS,
                       shuffle := sh2 })

def create_train_val_data_loaders (a : TrainArgs) (paths : List String) :
    List String × Except String TrainValResult :=
  match processPaths a initLoopState paths with
  | .error e => ([], .error e)
  | .ok st => assembleTrainVal a st

/-! Observations on a run of `create_train_val_data_loaders`. -/

def runLogs (x : List String × Except String TrainValResult) : List String := x.1

def runOk (x : List String × Except String TrainValResult) : Bool :=
  match x.2 with
  | .ok _ => true
  | .error _ => false

def runTrainShuffle (x : List String × Except String TrainValResult) : Bool :=
  match x.2 with
  | .ok r => r.train_loader.shuffle
  | .error _ => false

def runTrainTagCount (x : List String × Except String TrainValResult) : Nat :=
  match x.2 with
  | .ok r => r.trainSources.length
  | .error _ => 0

def runValAugTagCount (x : List String × Except String TrainValResult) : Nat :=
  match x.2 with
  | .ok r => r.valAugSources.length
  | .error _ => 0

def runTrainSources (x : List String × Except String TrainValResult) :
    Option (List (String × Dataset)) :=
  match x.2 with
  | .ok r => some r.trainSources
  | .error _ => none

def runTrainDataset (x : List String × Except String TrainValResult) :
    Option (Option Dataset) :=
  match x.2 with
  | .ok r => some r.train_loader.dataset
  | .error _ => none

/-- C10: when two paths classify to the same (kubric) source tag, the per-tag
mappings keep only the entry built from the last path: at train time the
single surviving dict entry and the dataset handed to the train loader are
the last path's, with no error; at test time both paths' datasets are kept in
the concatenated list while the returned per-tag configuration mapping holds
one entry. -/
theorem last_path_wins (a : TrainArgs) (t : TestArgs) (S : List (String × ConfigDict))
    (p1 p2 : String) (cfg d : ConfigDict)
    (h1 : classifySource p1 = some SourceTag.kubric)
    (h2 : classifySource p2 = some SourceTag.kubric)
    (hcfg : create_kubric_dset_args a = .ok cfg)
    (hd : create_kubric_test_dset_args S t = .ok d) :
    runTrainSources (create_train_val_data_loaders a [p1, p2]) =
        some [("kubric", Dataset.kubricQuery p2 "train" cfg)]
    ∧ runTrainDataset (create_train_val_data_loaders a [p1, p2]) =
        some (some (Dataset.kubricQuery p2 "train" cfg))
    ∧ testResultList (create_test_data_loader t (TrainSrcInput.bySource S) [p1, p2]) =
        some [Dataset.kubricQuery p1 "test" d, Dataset.kubricQuery p2 "test" d]
    ∧ testResultArgsSources
          (create_test_data_loader t (TrainSrcInput.bySource S) [p1, p2]) =
        some [("kubric", d)] := by
  cases hva : a.do_val_aug <;> cases hvn : a.do_val_noaug <;>
    simp [create_train_val_data_loaders, processPaths, processPath, h1, h2, hcfg,
      create_test_data_loader, processTestPaths, processTestPath, upgradeArgsSources,
      hd, assembleTrainVal, trainBlock, valBlock, valLoaderBlock, initLoopState,
      dictSet, runTrainSources, runTrainDataset, testResultList,
      testResultArgsSources, finalTestDataset, hva, hvn]

def testCfgW : ConfigDict :=
  match create_kubric_test_dset_args sourcesW testW with
  | .ok c => c
  | .error _ => []

/-- Instantiation of C10 at two synthetic paths: the surviving train entry is
the second path's dataset. -/
theorem last_path_wins_witness :
    runTrainSources (create_train_val_data_loaders argsW ["kubcon_a", "kubcon_b"]) =
      some [("kubric", Dataset.kubricQuery "kubcon_b" "train" cfgW)] :=
  (last_path_wins argsW testW sourcesW "kubcon_a" "kubcon_b" cfgW testCfgW
    (by decide) (by decide) rfl rfl).1

/-- C9: with validation requested but only a web-video source (which
contributes no validation dataset), the code logs the absence and then
crashes with a `NameError` on the never-assigned `final_val_aug_dataset`,
instead of returning normally. -/
theorem missing_validation_logged_then_crash :
    create_train_val_data_loaders { argsW with do_val_aug := true }
        ["footage/youtube-vos/train"] =
      (["No validation datasets were successfully instantiated."],
       .error "NameError: name final_val_aug_dataset is not defined") := by
  rfl

theorem trainBlock_shuffle (a : TrainArgs) (st : LoopState) (sh0 : Bool)
    (pair : Dataset × Bool) (h : trainBlock a st sh0 = .ok pair) :
    pair.2 = if st.trainS.length = 1 then sh0 else false := by
  unfold trainBlock at h
  split at h
  · rename_i hlen
    cases hl : st.lastTrain with
    | some dd => rw [hl] at h; cases h; simp [hlen]
    | none => rw [hl] at h; cases h
  · rename_i hlen
    split at h
    · cases h
      simp [hlen]
    · cases h

theorem valBlock_shuffle (a : TrainArgs) (st : LoopState) (sh1 : Bool) :
    (valBlock a st sh1).2.2.1 = if 1 < st.valAugS.length then false else sh1 := by
  by_cases h2 : 1 < st.valAugS.length
  · have h1 : ¬ st.valAugS.length = 1 := by omega
    simp [valBlock, h1, h2]
  · by_cases h1 : st.valAugS.length = 1
    · simp [valBlock, h1, h2]
    · simp only [valBlock, h1, h2, if_false, if_neg]
      split_ifs <;> rfl

theorem assembleTrainVal_ok_spec (a : TrainArgs) (st : LoopState) (logs : List String)
    (r : TrainValResult) (h : assembleTrainVal a st = (logs, .ok r)) :
    r.trainSources = st.trainS ∧ r.valAugSources = st.valAugS ∧
    r.train_loader.shuffle =
      (if 1 < st.valAugS.length then false
       else if st.trainS.length = 1 then !a.data_loop_only
       else false) := by
  unfold assembleTrainVal at h
  cases htb : trainBlock a st (!a.data_loop_only) with
  | error e => rw [htb] at h; cases h
  | ok pair =>
    rw [htb] at h
    dsimp only at h
    have hsh1 := trainBlock_shuffle a st (!a.data_loop_only) pair htb
    have hsh2 := valBlock_shuffle a st pair.2
    cases hvb : valBlock a st pair.2 with
    | mk fva rest =>
      obtain ⟨fvn, sh2, logs2⟩ := rest
      rw [hvb] at h hsh2
      dsimp only at h hsh2
      cases hvl1 : valLoaderBlock a.do_val_aug fva a.batch_size a.num_workers sh2
          "final_val_aug_dataset" with
      | error e => rw [hvl1] at h; cases h
      | ok va =>
        rw [hvl1] at h
        dsimp only at h
        cases hvl2 : valLoaderBlock a.do_val_noaug fvn a.batch_size a.num_workers sh2
            "final_val_noaug_dataset" with
        | error e => rw [hvl2] at h; cases h
        | ok vn =>
          rw [hvl2] at h
          dsimp only at h
          injection h with hA hB
          injection hB with hB
          subst hB
          refine ⟨rfl, rfl, ?_⟩
          dsimp only
          rw [hsh2, hsh1]

/-- C6: in a successful run of the training/validation loader assembly, more
than one training source tag (or, vacuously here, more than one validation
source tag) forces the shuffle flag passed to the loaders to `False`, while
exactly one source tag preserves the caller's request
(shuffle unless `data_loop_only`). -/
theorem mixing_forces_shuffle_off (a : TrainArgs) (paths : List String)
    (hok : runOk (create_train_val_data_loaders a paths) = true) :
    ((1 < runTrainTagCount (create_train_val_data_loaders a paths) ∨
        1 < runValAugTagCount (create_train_val_data_loaders a paths)) →
      runTrainShuffle (create_train_val_data_loaders a paths) = false)
    ∧ ((runTrainTagCount (create_train_val_data_loaders a paths) = 1 ∧
        runValAugTagCount (create_train_val_data_loaders a paths) ≤ 1) →
      runTrainShuffle (create_train_val_data_loaders a paths) = (!a.data_loop_only)) := by
  unfold create_train_val_data_loaders at hok ⊢
  cases hp : processPaths a initLoopState paths with
  | error e =>
    rw [hp] at hok
    simp [runOk] at hok
  | ok st =>
    rw [hp] at hok
    dsimp only at hok ⊢
    cases har : assembleTrainVal a st with
    | mk logs out =>
      rw [har] at hok
      cases out with
      | error e => simp [runOk] at hok
      | ok r =>
        obtain ⟨hts, hvs, hsh⟩ := assembleTrainVal_ok_spec a st logs r har
        simp only [runTrainTagCount, runValAugTagCount, runTrainShuffle, hts, hvs, hsh]
        constructor
        · rintro (hgt | hgt) <;> split_ifs <;> first | rfl | omega
        · rintro ⟨he, hle⟩
          rw [if_neg (by omega), if_pos he]

/-- Instantiation of C6: one synthetic source preserves the caller's shuffle
request (on, since `data_loop_only` is off). -/
theorem mixing_forces_shuffle_off_witness :
    runTrainShuffle (create_train_val_data_loaders argsW ["kubcon_v10"]) = true :=
  (mixing_forces_shuffle_off argsW ["kubcon_v10"] (by decide)).2 (by decide)

/-! ### Error characterization of the training loader assembly (C7) -/

theorem create_kubric_dset_args_ok (a : TrainArgs)
    (hws : a.which_seeker = "mask_track_2d") :
    ∃ cfg, create_kubric_dset_args a = .ok cfg := by
  unfold create_kubric_dset_args kubricQuerySizeLoad3d
  rw [hws, if_neg (by decide : ¬ ("mask_track_2d" : String) = "point_track_3d"),
    if_pos (rfl : ("mask_track_2d" : String) = "mask_track_2d")]
  exact ⟨_, rfl⟩

theorem create_ytvos_dset_args_ok (a : TrainArgs)
    (hws : a.which_seeker = "mask_track_2d") :
    ∃ cfg, create_ytvos_dset_args a = .ok cfg := by
  unfold create_ytvos_dset_args
  rw [if_pos hws]
  exact ⟨_, rfl⟩

theorem processPath_ok_elim (a : TrainArgs) (st : LoopState) (p : String)
    (st1 : LoopState) (h : processPath a st p = .ok st1) :
    classifySource p = some SourceTag.kubric ∨
      classifySource p = some SourceTag.ytvos := by
  unfold processPath at h
  cases hc : classifySource p with
  | none => rw [hc] at h; cases h
  | some tag =>
    cases tag with
    | kubric => exact Or.inl rfl
    | ytvos => exact Or.inr rfl
    | plugin => rw [hc] at h; cases h

theorem processPath_ok_of (a : TrainArgs) (st : LoopState) (p : String)
    (hws : a.which_seeker = "mask_track_2d")
    (hcls : classifySource p = some SourceTag.kubric ∨
      classifySource p = some SourceTag.ytvos) :
    ∃ st1, processPath a st p = .ok st1 := by
  cases hpp : processPath a st p with
  | ok st1 => exact ⟨st1, rfl⟩
  | error e =>
    exfalso
    unfold processPath at hpp
    rcases hcls with hc | hc
    · obtain ⟨cfg, hcfg⟩ := create_kubric_dset_args_ok a hws
      rw [hc] at hpp
      dsimp only at hpp
      rw [hcfg] at hpp
      cases hpp
    · obtain ⟨cfg, hcfg⟩ := create_ytvos_dset_args_ok a hws
      rw [hc] at hpp
      dsimp only at hpp
      rw [hcfg] at hpp
      cases hpp

theorem processPath_state (a : TrainArgs) (st : LoopState) (p : String)
    (st1 : LoopState) (h : processPath a st p = .ok st1) :
    st1.trainS ≠ [] ∧ st1.lastTrain.isSome = true ∧
    (st1.valAugS = [] ↔
      (st.valAugS = [] ∧ ¬ classifySource p = some SourceTag.kubric)) ∧
    (st1.lastValAug.isSome = true ↔
      (st.lastValAug.isSome = true ∨ classifySource p = some SourceTag.kubric)) ∧
    (st1.lastValNoaug.isSome = true ↔
      (st.lastValNoaug.isSome = true ∨ classifySource p = some SourceTag.kubric)) := by
  unfold processPath at h
  cases hc : classifySource p with
  | none => rw [hc] at h; cases h
  | some tag =>
    rw [hc] at h
    cases tag with
    | kubric =>
      dsimp only at h
      cases hk : create_kubric_dset_args a with
      | error e => rw [hk] at h; cases h
      | ok cfg =>
        rw [hk] at h
        dsimp only at h
        injection h with h
        subst h
        refine ⟨dictSet_ne_nil _ _ _, rfl, ?_, ?_, ?_⟩
        · constructor
          · intro hx
            exact absurd hx (dictSet_ne_nil _ _ _)
          · rintro ⟨-, hx⟩
            exact absurd rfl hx
        · simp
        · simp
    | ytvos =>
      dsimp only at h
      cases hk : create_ytvos_dset_args a with
      | error e => rw [hk] at h; cases h
      | ok cfg =>
        rw [hk] at h
        dsimp only at h
        injection h with h
        subst h
        refine ⟨dictSet_ne_nil _ _ _, rfl, ?_, ?_, ?_⟩ <;> simp
    | plugin => cases h

theorem processPaths_ok_iff (a : TrainArgs) (hws : a.which_seeker = "mask_track_2d") :
    ∀ (paths : List String) (st : LoopState),
      (∃ st1, processPaths a st paths = .ok st1) ↔
        ∀ p ∈ paths, (classifySource p = some SourceTag.kubric ∨
          classifySource p = some SourceTag.ytvos) := by
  intro paths
  induction paths with
  | nil =>
    intro st
    simp [processPaths]
  | cons p rest ih =>
    intro st
    constructor
    · rintro ⟨st1, hst1⟩
      unfold processPaths at hst1
      cases hpp : processPath a st p with
      | error e => rw [hpp] at hst1; cases hst1
      | ok stMid =>
        rw [hpp] at hst1
        dsimp only at hst1
        intro q hq
        rcases List.mem_cons.mp hq with rfl | hq2
        · exact processPath_ok_elim a st q stMid hpp
        · exact ((ih stMid).mp ⟨st1, hst1⟩) q hq2
    · intro hall
      obtain ⟨stMid, hpp⟩ := processPath_ok_of a st p hws (hall p (List.mem_cons_self p rest))
      obtain ⟨st1, hst1⟩ := (ih stMid).mpr fun q hq => hall q (List.mem_cons_of_mem p hq)
      refine ⟨st1, ?_⟩
      unfold processPaths
      rw [hpp]
      exact hst1

theorem processPaths_state (a : TrainArgs) :
    ∀ (paths : List String) (st st1 : LoopState),
      processPaths a st paths = .ok st1 →
      ((st1.trainS = [] ↔ (st.trainS = [] ∧ paths = [])) ∧
       (st1.valAugS = [] ↔ (st.valAugS = [] ∧
         ∀ p ∈ paths, ¬ classifySource p = some SourceTag.kubric)) ∧
       (st1.lastTrain.isSome = true ↔ (st.lastTrain.isSome = true ∨ paths ≠ [])) ∧
       (st1.lastValAug.isSome = true ↔ (st.lastValAug.isSome = true ∨
         ∃ p ∈ paths, classifySource p = some SourceTag.kubric)) ∧
       (st1.lastValNoaug.isSome = true ↔ (st.lastValNoaug.isSome = true ∨
         ∃ p ∈ paths, classifySource p = some SourceTag.kubric))) := by
  intro paths
  induction paths with
  | nil =>
    intro st st1 h
    unfold processPaths at h
    injection h with h
    subst h
    simp
  | cons p rest ih =>
    intro st st1 h
    unfold processPaths at h
    cases hpp : processPath a st p with
    | error e => rw [hpp] at h; cases h
    | ok stMid =>
      rw [hpp] at h
      dsimp only at h
      obtain ⟨m1, m2, m3, m4, m5⟩ := processPath_state a st p stMid hpp
      obtain ⟨r1, r2, r3, r4, r5⟩ := ih stMid st1 h
      refine ⟨?_, ?_, ?_, ?_, ?_⟩
      · rw [r1]
        constructor
        · rintro ⟨hx, -⟩
          exact absurd hx m1
        · rintro ⟨-, hx⟩
          cases hx
      · rw [r2]
        constructor
        · rintro ⟨hmid, hrest⟩
          obtain ⟨hst, hnp⟩ := m3.mp hmid
          refine ⟨hst, ?_⟩
          intro q hq
          rcases List.mem_cons.mp hq with rfl | hq2
          · exact hnp
          · exact hrest q hq2
        · rintro ⟨hst, hall⟩
          exact ⟨m3.mpr ⟨hst, hall p (List.mem_cons_self p rest)⟩,
            fun q hq => hall q (List.mem_cons_of_mem p hq)⟩
      · rw [r3]
        exact iff_of_true (Or.inl m2) (Or.inr (by simp))
      · rw [r4]
        constructor
        · rintro (hmid | ⟨q, hq, hcls⟩)
          · rcases m4.mp hmid with hst | hcls
            · exact Or.inl hst
            · exact Or.inr ⟨p, List.mem_cons_self p rest, hcls⟩
          · exact Or.inr ⟨q, List.mem_cons_of_mem p hq, hcls⟩
        · rintro (hst | ⟨q, hq, hcls⟩)
          · exact Or.inl (m4.mpr (Or.inl hst))
          · rcases List.mem_cons.mp hq with rfl | hq2
            · exact Or.inl (m4.mpr (Or.inr hcls))
            · exact Or.inr ⟨q, hq2, hcls⟩
      · rw [r5]
        constructor
        · rintro (hmid | ⟨q, hq, hcls⟩)
          · rcases m5.mp hmid with hst | hcls
            · exact Or.inl hst
            · exact Or.inr ⟨p, List.mem_cons_self p rest, hcls⟩
          · exact Or.inr ⟨q, List.mem_cons_of_mem p hq, hcls⟩
        · rintro (hst | ⟨q, hq, hcls⟩)
          · exact Or.inl (m5.mpr (Or.inl hst))
          · rcases List.mem_cons.mp hq with rfl | hq2
            · exact Or.inl (m5.mpr (Or.inr hcls))
            · exact Or.inr ⟨q, hq2, hcls⟩

theorem valLoaderBlock_ok (doFlag : Bool) (v : Option (Option Dataset)) (bs nw : Nat)
    (sh : Bool) (who : String) (hv : doFlag = true → v.isSome = true) :
    ∃ w, valLoaderBlock doFlag v bs nw sh who = .ok w := by
  cases doFlag with
  | false => exact ⟨none, rfl⟩
  | true =>
    cases hvv : v with
    | some d =>
      refine ⟨some { dataset := d, batchSize := bs, numWorkers := nw,
                     shuffle := sh, dropLast := true }, ?_⟩
      unfold valLoaderBlock
      rfl
    | none => exact absurd (hv rfl) (by simp [hvv])

theorem valBlock_components (a : TrainArgs) (st : LoopState) (sh1 : Bool)
    (hlv : st.valAugS ≠ [] →
      (st.lastValAug.isSome = true ∧ st.lastValNoaug.isSome = true)) :
    (st.valAugS ≠ [] → ((valBlock a st sh1).1.isSome = true ∧
      (valBlock a st sh1).2.1.isSome = true))
    ∧ (st.valAugS = [] → ((valBlock a st sh1).1 = none ∧
      (valBlock a st sh1).2.1 = none)) := by
  by_cases h1 : st.valAugS.length = 1
  · constructor
    · intro hne
      obtain ⟨ha, hb⟩ := hlv hne
      simp [valBlock, h1, ha, hb]
    · intro hemp
      rw [hemp] at h1
      cases h1
  · by_cases h2 : 1 < st.valAugS.length
    · constructor
      · intro hne
        simp [valBlock, h1, h2]
      · intro hemp
        rw [hemp] at h2
        simp at h2
    · constructor
      · intro hne
        exfalso
        have : st.valAugS.length ≠ 0 := by
          intro hz
          exact hne (List.length_eq_zero.mp hz)
        omega
      · intro hemp
        unfold valBlock
        rw [if_neg h1, if_neg h2]
        split_ifs <;> exact ⟨rfl, rfl⟩

theorem assembleTrainVal_ok_iff (a : TrainArgs) (st : LoopState)
    (hlt : st.trainS ≠ [] → st.lastTrain.isSome = true)
    (hlv : st.valAugS ≠ [] →
      (st.lastValAug.isSome = true ∧ st.lastValNoaug.isSome = true))
    (hval : (a.do_val_aug || a.do_val_noaug) = true → st.valAugS ≠ []) :
    (runOk (assembleTrainVal a st) = true ↔ st.trainS ≠ []) := by
  constructor
  · intro hok hemp
    unfold assembleTrainVal trainBlock at hok
    simp [hemp, runOk] at hok
  · intro hne
    unfold assembleTrainVal
    have hpair : ∃ pair, trainBlock a st (!a.data_loop_only) = .ok pair := by
      unfold trainBlock
      have hlen0 : st.trainS.length ≠ 0 := by
        intro hz
        exact hne (List.length_eq_zero.mp hz)
      by_cases hlen1 : st.trainS.length = 1
      · rw [if_pos hlen1]
        cases hl : st.lastTrain with
        | some d => exact ⟨_, rfl⟩
        | none =>
          have := hlt hne
          rw [hl] at this
          cases this
      · rw [if_neg hlen1, if_pos (by omega)]
        exact ⟨_, rfl⟩
    obtain ⟨pair, hpb⟩ := hpair
    rw [hpb]
    dsimp only
    have hcomp := valBlock_components a st pair.2 hlv
    cases hvb : valBlock a st pair.2 with
    | mk fva rest =>
      obtain ⟨fvn, sh2, logs2⟩ := rest
      rw [hvb] at hcomp
      dsimp only at hcomp
      have hfa : a.do_val_aug = true → fva.isSome = true := by
        intro hf
        exact (hcomp.1 (hval (by simp [hf]))).1
      have hfn : a.do_val_noaug = true → fvn.isSome = true := by
        intro hf
        exact (hcomp.1 (hval (by simp [hf]))).2
      obtain ⟨va, hva2⟩ := valLoaderBlock_ok a.do_val_aug fva a.batch_size
        a.num_workers sh2 "final_val_aug_dataset" hfa
      obtain ⟨vn, hvn2⟩ := valLoaderBlock_ok a.do_val_noaug fvn a.batch_size
        a.num_workers sh2 "final_val_noaug_dataset" hfn
      rw [hva2]
      dsimp only
      rw [hvn2]
      rfl

/-- C7 amended: when the model type is `mask_track_2d` (so the per-source
builders' own assertions hold) and any requested validation is backed by at
least one synthetic source (otherwise the missing-validation `NameError` of
C9 fires), `create_train_val_data_loaders` fails exactly in the three
documented situations: a path matching no classification rule, a user-clip
(plugin) path at train time, or an empty path list (zero instantiated
training datasets). -/
theorem fatal_error_characterization (a : TrainArgs) (paths : List String)
    (hws : a.which_seeker = "mask_track_2d")
    (hval : (a.do_val_aug || a.do_val_noaug) = true →
      ∃ p ∈ paths, classifySource p = some SourceTag.kubric) :
    (runOk (create_train_val_data_loaders a paths) = false ↔
      ((∃ p ∈ paths, classifySource p = none) ∨
       (∃ p ∈ paths, classifySource p = some SourceTag.plugin) ∨
       paths = [])) := by
  unfold create_train_val_data_loaders
  cases hp : processPaths a initLoopState paths with
  | error e =>
    have hnot : ¬ ∀ p ∈ paths, (classifySource p = some SourceTag.kubric ∨
        classifySource p = some SourceTag.ytvos) := by
      intro hall
      obtain ⟨st1, hst1⟩ := (processPaths_ok_iff a hws paths initLoopState).mpr hall
      rw [hp] at hst1
      cases hst1
    push_neg at hnot
    obtain ⟨p, hpmem, hpcls⟩ := hnot
    have hright : (∃ q ∈ paths, classifySource q = none) ∨
        (∃ q ∈ paths, classifySource q = some SourceTag.plugin) ∨ paths = [] := by
      cases hc : classifySource p with
      | none => exact Or.inl ⟨p, hpmem, hc⟩
      | some tag =>
        cases tag with
        | kubric => exact absurd hc hpcls.1
        | ytvos => exact absurd hc hpcls.2
        | plugin => exact Or.inr (Or.inl ⟨p, hpmem, hc⟩)
    exact iff_of_true rfl hright
  | ok st =>
    dsimp only
    have hall : ∀ p ∈ paths, (classifySource p = some SourceTag.kubric ∨
        classifySource p = some SourceTag.ytvos) :=
      (processPaths_ok_iff a hws paths initLoopState).mp ⟨st, hp⟩
    obtain ⟨s1, s2, s3, s4, s5⟩ := processPaths_state a paths initLoopState st hp
    have htS : st.trainS = [] ↔ paths = [] := by
      rw [s1]
      simp [initLoopState]
    have hvS : st.valAugS = [] ↔
        (∀ p ∈ paths, ¬ classifySource p = some SourceTag.kubric) := by
      rw [s2]
      simp [initLoopState]
    have hlT : st.lastTrain.isSome = true ↔ paths ≠ [] := by
      rw [s3]
      simp [initLoopState]
    have hlA : st.lastValAug.isSome = true ↔
        (∃ p ∈ paths, classifySource p = some SourceTag.kubric) := by
      rw [s4]
      simp [initLoopState]
    have hlN : st.lastValNoaug.isSome = true ↔
        (∃ p ∈ paths, classifySource p = some SourceTag.kubric) := by
      rw [s5]
      simp [initLoopState]
    have h1 : st.trainS ≠ [] → st.lastTrain.isSome = true := by
      intro hne
      rw [hlT]
      intro hpe
      exact hne (htS.mpr hpe)
    have h2 : st.valAugS ≠ [] →
        (st.lastValAug.isSome = true ∧ st.lastValNoaug.isSome = true) := by
      intro hne
      have hex : ∃ p ∈ paths, classifySource p = some SourceTag.kubric := by
        by_contra hno
        push_neg at hno
        exact hne (hvS.mpr hno)
      exact ⟨hlA.mpr hex, hlN.mpr hex⟩
    have h3 : (a.do_val_aug || a.do_val_noaug) = true → st.valAugS ≠ [] := by
      intro hf hemp
      obtain ⟨p, hpmem, hpc⟩ := hval hf
      exact (hvS.mp hemp) p hpmem hpc
    have hiff := assembleTrainVal_ok_iff a st h1 h2 h3
    have hnone : ¬ (∃ p ∈ paths, classifySource p = none) := by
      rintro ⟨p, hpmem, hc⟩
      rcases hall p hpmem with h | h <;> rw [hc] at h <;> cases h
    have hplug : ¬ (∃ p ∈ paths, classifySource p = some SourceTag.plugin) := by
      rintro ⟨p, hpmem, hc⟩
      rcases hall p hpmem with h | h <;> rw [hc] at h <;> simp at h
    have hbool : (runOk (assembleTrainVal a st) = false) ↔
        ¬ (runOk (assembleTrainVal a st) = true) := by
      cases runOk (assembleTrainVal a st) <;> simp
    rw [hbool, hiff]
    constructor
    · intro hF
      exact Or.inr (Or.inr (htS.mp (not_ne_iff.mp hF)))
    · rintro (hx | hx | hx)
      · exact absurd hx hnone
      · exact absurd hx hplug
      · exact not_ne_iff.mpr (htS.mpr hx)

/-- Instantiation of C7 (amended) at an unrecognized path: the run fails and
the characterization holds concretely. -/
theorem fatal_error_characterization_witness :
    runOk (create_train_val_data_loaders argsW ["mystery_clip_dir"]) = false ↔
      ((∃ p ∈ ["mystery_clip_dir"], classifySource p = none) ∨
       (∃ p ∈ ["mystery_clip_dir"], classifySource p = some SourceTag.plugin) ∨
       ["mystery_clip_dir"] = ([] : List String)) :=
  fatal_error_characterization argsW ["mystery_clip_dir"] rfl
    (fun h => absurd h (by decide))

/-- C7 counterexample: with the 3D point-tracking model type, a recognized
synthetic path followed by a recognized web-video path still makes the
assembly fail (the web-video builder's model-type assertion), although no
path is unrecognized, none is a user-clip, and a training dataset was
successfully instantiated from the first path: the three documented
situations are not exhaustive. -/
theorem fatal_error_counterexample :
    (∀ p ∈ (["kubcon_v10", "clips_youtube-vos_2019"] : List String),
        classifySource p = some SourceTag.kubric ∨
          classifySource p = some SourceTag.ytvos)
    ∧ runOk (create_train_val_data_loaders { argsW with which_seeker := "point_track_3d" }
        ["kubcon_v10", "clips_youtube-vos_2019"]) = false := by
  constructor
  · decide
  · rfl
